import Mathlib

set_option autoImplicit false

namespace GfxModel

/-!
Shallow embedding of the gfx HAL core under verification:
the dx11 command-interpreter resource-update engine
(src/src/backend/dx11/src/execute.rs) and the dx12 device layer
(src/src/backend/dx12/src/device.rs).

Native driver calls (Map, UpdateSubresource, CreatePlacedResource,
GetResourceAllocationInfo, WaitForMultipleObjects, shader reflection,
format conversion) are external collaborators: their outcomes enter the
model as explicit environment data, and the calls the code issues are
recorded in a trace so that claims of the form "no native call is made"
are directly expressible.
-/

/-! ## Shared vocabulary: core::memory access flags and usage kinds -/

/-- Bitflag value of core::memory::READ. -/
def READ : Nat := 1

/-- Bitflag value of core::memory::WRITE. -/
def WRITE : Nat := 2

/-- core::memory::Usage, the usage tag gating update strategy
(variants as in the gfx core data model; the payloads of CpuOnly and
Persistent are access bitflags / mapping data, carried as Nat). -/
inductive Usage where
  | immutable
  | gpuOnly
  | dynamic
  | cpuOnly (access : Nat)
  | persistent (access : Nat)
deriving DecidableEq, Repr

/-! ## dx11 resource update engine (execute.rs) -/

/-- winapi D3D11_MAP_WRITE_DISCARD constant. -/
def D3D11_MAP_WRITE_DISCARD : Nat := 4

/-- winapi SUCCEEDED: an HRESULT is a success iff it is non-negative. -/
def SUCCEEDED (hr : Int) : Bool := decide (0 ≤ hr)

/-- A D3D11_BOX, the axis-aligned destination region of UpdateSubresource. -/
structure Box where
  left : Nat
  top : Nat
  front : Nat
  right : Nat
  bottom : Nat
  back : Nat
deriving DecidableEq, Repr

/-- Observable events emitted by the dx11 update engine: the structured
error log (error severity diagnostic event) and each native call issued
on the device context, in program order. -/
inductive Event where
  | errorEvent
  | updateSubresourceCall (resource subres : Nat) (box : Box)
      (rowPitch depthPitch : Nat) (data : List Nat)
  | mapCall (resource mapType : Nat)
  | copyMem (dst len : Nat)
  | unmapCall (resource : Nat)
deriving DecidableEq, Repr

/-- Which events are native write calls issued to the driver
(everything except the diagnostic error log). -/
def Event.isNativeCall : Event → Bool
  | .errorEvent => false
  | _ => true

/-- Result of the native ID3D11DeviceContext::Map call: the HRESULT, and
the contents of the D3D11_MAPPED_SUBRESOURCE structure after the call.
The structure is zero-initialized by the caller (mem::zeroed), so a Map
that fails without writing the structure leaves pData at 0. -/
structure MapResult where
  hr : Int
  pData : Nat
deriving DecidableEq, Repr

/-- Environment of external outcomes for the dx11 update engine:
what the native Map call produces, and how the native driver transforms
the destination bytes on an UpdateSubresource call (outside this code,
so left as an arbitrary function of the call parameters). -/
structure Dx11Env where
  mapResult : MapResult
  subresourceWrite : Nat → Box → List Nat → List Nat → List Nat

/-- A dx11 buffer handle: the native resource pointer identity, the
usage tag it carries, and the byte contents of its backing store. -/
structure BufferRes where
  id : Nat
  usage : Usage
  bytes : List Nat
deriving DecidableEq, Repr

/-- A dx11 texture handle, same shape as BufferRes. -/
structure TextureRes where
  id : Nat
  usage : Usage
  bytes : List Nat
deriving DecidableEq, Repr

/-- Outcome of one update call: the emitted trace plus the resulting
resource bytes, or a panic (unimplemented!) with the trace so far. -/
inductive UpdateOutcome where
  | ok (trace : List Event) (bytes : List Nat)
  | panicked (trace : List Event)
deriving DecidableEq, Repr

/-- Splice data into bytes starting at offset, the effect of
ptr::copy_nonoverlapping through a pointer to the resource storage. -/
def writeBytes (bytes : List Nat) (offset : Nat) (data : List Nat) : List Nat :=
  bytes.take offset ++ data ++ bytes.drop (offset + data.length)

/-- The Dynamic / CpuOnly(write) arm of update_buffer: Map with
WRITE_DISCARD, compute dst = sub.pData + offset, copy the payload,
Unmap, and only then inspect the HRESULT; a failed map logs an error
event after the write.  On success the mapped pointer addresses the
buffer storage, so the bytes become writeBytes; on failure the copy
goes through the pointer taken from the (zero-initialized) mapping
structure and the resource storage is untouched. -/
def dynamicPathBuffer (env : Dx11Env) (buffer : BufferRes)
    (data : List Nat) (offset_bytes : Nat) : UpdateOutcome :=
  let map_type := D3D11_MAP_WRITE_DISCARD
  let hr := env.mapResult.hr
  let trace := [Event.mapCall buffer.id map_type,
                Event.copyMem (env.mapResult.pData + offset_bytes) data.length,
                Event.unmapCall buffer.id]
  if SUCCEEDED hr then
    .ok trace (writeBytes buffer.bytes offset_bytes data)
  else
    .ok (trace ++ [Event.errorEvent]) buffer.bytes

/-- update_buffer from execute.rs: dispatch on the usage tag. -/
def update_buffer (env : Dx11Env) (buffer : BufferRes)
    (data : List Nat) (offset_bytes : Nat) : UpdateOutcome :=
  let dst_resource := buffer.id
  match buffer.usage with
  | .immutable => .ok [Event.errorEvent] buffer.bytes
  | .cpuOnly access =>
      if access = READ then .ok [Event.errorEvent] buffer.bytes
      else dynamicPathBuffer env buffer data offset_bytes
  | .gpuOnly =>
      let dst_box : Box :=
        ⟨offset_bytes, 0, 0, offset_bytes + data.length, 1, 1⟩
      .ok [Event.updateSubresourceCall dst_resource 0 dst_box 0 0 data]
        (env.subresourceWrite 0 dst_box data buffer.bytes)
  | .persistent _ => .panicked []
  | .dynamic => dynamicPathBuffer env buffer data offset_bytes

/-- core::texture::CubeFace. -/
inductive CubeFace where
  | posX | negX | posY | negY | posZ | negZ
deriving DecidableEq, Repr

/-- The cube-face to array-slice table at the top of update_texture. -/
def arraySliceOfFace : Option CubeFace → Nat
  | some .posX => 0
  | some .negX => 1
  | some .posY => 2
  | some .negY => 3
  | some .posZ => 4
  | some .negZ => 5
  | none => 0

/-- The mip-level count used by the subresource index computation;
hardwired to 1 in the code (marked TODO there). -/
def num_mipmap_levels : Nat := 1

/-- Modelled from the spec: core::texture::Kind lives outside src/;
the update engine only consumes its per-mip-level width and height,
which halve per level down to a floor of 1. -/
structure TexKind where
  width : Nat
  height : Nat
deriving DecidableEq, Repr

/-- Modelled from the spec: Kind::get_level_dimensions, restricted to
the (width, height) pair the dx11 update engine reads from it. -/
def get_level_dimensions (kind : TexKind) (level : Nat) : Nat × Nat :=
  (max 1 (kind.width / 2 ^ level), max 1 (kind.height / 2 ^ level))

/-- The sub-image descriptor core::texture::RawImageInfo, restricted to
the fields update_texture reads; formatBits stands for
image.format.0.get_total_bits(). -/
structure RawImageInfo where
  xoffset : Nat
  yoffset : Nat
  zoffset : Nat
  width : Nat
  height : Nat
  depth : Nat
  mipmap : Nat
  formatBits : Nat
deriving DecidableEq, Repr

/-- update_texture from execute.rs: compute the array slice from the
optional cube face, the subresource index, then dispatch on usage.
The Dynamic / CpuOnly(write) / Persistent arm is unimplemented!(). -/
def update_texture (env : Dx11Env) (texture : TextureRes) (kind : TexKind)
    (face : Option CubeFace) (data : List Nat) (image : RawImageInfo) :
    UpdateOutcome :=
  let array_slice := arraySliceOfFace face
  let subres := array_slice * num_mipmap_levels + image.mipmap
  let dst_resource := texture.id
  match texture.usage with
  | .immutable => .ok [Event.errorEvent] texture.bytes
  | .cpuOnly access =>
      if access = READ then .ok [Event.errorEvent] texture.bytes
      else .panicked []
  | .gpuOnly =>
      let dims := get_level_dimensions kind image.mipmap
      let stride := image.formatBits
      let row_pitch := dims.1 * stride
      let depth_pitch := dims.2 * row_pitch
      let dst_box : Box :=
        ⟨image.xoffset, image.yoffset, image.zoffset,
         image.xoffset + image.width, image.yoffset + image.height,
         image.zoffset + image.depth⟩
      .ok [Event.updateSubresourceCall dst_resource subres dst_box
            row_pitch depth_pitch data]
        (env.subresourceWrite subres dst_box data texture.bytes)
  | .dynamic => .panicked []
  | .persistent _ => .panicked []

/-! ## dx12 device layer (device.rs): constants and data model -/

/-- 2^64, the modulus of the u64 arithmetic in device.rs. -/
def u64Mod : Nat := 2 ^ 64

/-- winapi D3D12_RESOURCE_DIMENSION values. -/
def D3D12_RESOURCE_DIMENSION_BUFFER : Nat := 1

def D3D12_RESOURCE_DIMENSION_TEXTURE1D : Nat := 2

def D3D12_RESOURCE_DIMENSION_TEXTURE2D : Nat := 3

def D3D12_RESOURCE_DIMENSION_TEXTURE3D : Nat := 4

/-- winapi DXGI_FORMAT_UNKNOWN. -/
def DXGI_FORMAT_UNKNOWN : Nat := 0

/-- winapi D3D12_TEXTURE_LAYOUT values. -/
def D3D12_TEXTURE_LAYOUT_UNKNOWN : Nat := 0

def D3D12_TEXTURE_LAYOUT_ROW_MAJOR : Nat := 1

/-- winapi D3D12_INPUT_CLASSIFICATION values. -/
def D3D12_INPUT_CLASSIFICATION_PER_VERTEX_DATA : Nat := 0

def D3D12_INPUT_CLASSIFICATION_PER_INSTANCE_DATA : Nat := 1

/-- winapi D3D12_DEFAULT_RESOURCE_PLACEMENT_ALIGNMENT. -/
def D3D12_DEFAULT_RESOURCE_PLACEMENT_ALIGNMENT : Nat := 65536

/-- core::memory::Requirements. -/
structure Requirements where
  size : Nat
  alignment : Nat
deriving DecidableEq, Repr

/-- The native D3D12_RESOURCE_ALLOCATION_INFO returned by
ID3D12Device::GetResourceAllocationInfo. -/
structure AllocInfo where
  sizeInBytes : Nat
  alignment : Nat
deriving DecidableEq, Repr

/-- A D3D12_RESOURCE_DESC (the fields device.rs fills in). -/
structure ResourceDesc where
  dimension : Nat
  alignment : Nat
  width : Nat
  height : Nat
  depthOrArraySize : Nat
  mipLevels : Nat
  format : Nat
  sampleCount : Nat
  sampleQuality : Nat
  layout : Nat
  flags : Nat
deriving DecidableEq, Repr

/-- native::Heap: native heap identity, heap size in bytes and the
derived default resource state. -/
structure Heap where
  id : Nat
  size : Nat
  defaultState : Nat
deriving DecidableEq, Repr

/-- UnboundBuffer from device.rs. -/
structure UnboundBuffer where
  requirements : Requirements
  stride : Nat
  usage : Nat
deriving DecidableEq, Repr

/-- core::format::Format, a (surface type, channel type) pair;
format.0 is the surface, format.1 the channel. -/
structure PixelFormat where
  surface : Nat
  channel : Nat
deriving DecidableEq, Repr

/-- core::image::AaMode, restricted to what get_num_fragments reads. -/
inductive AaMode where
  | single
  | multi (fragments : Nat)
deriving DecidableEq, Repr

/-- AaMode::get_num_fragments. -/
def AaMode.get_num_fragments : AaMode → Nat
  | .single => 1
  | .multi n => n

/-- core::image::Kind (the variants device.rs matches on). -/
inductive ImgKind where
  | d1 (w : Nat)
  | d1Array (w layers : Nat)
  | d2 (w h : Nat) (aa : AaMode)
  | d2Array (w h layers : Nat) (aa : AaMode)
  | d3 (w h d : Nat)
  | cube (size : Nat)
  | cubeArray (size layers : Nat)
deriving DecidableEq, Repr

/-- Modelled from the spec: core::image::Kind::get_dimensions lives
outside src/; it reports the kind's extents as
(width, height, depth-or-layer-count, aa mode). -/
def ImgKind.get_dimensions : ImgKind → Nat × Nat × Nat × AaMode
  | .d1 w => (w, 1, 1, .single)
  | .d1Array w layers => (w, 1, layers, .single)
  | .d2 w h aa => (w, h, 1, aa)
  | .d2Array w h layers aa => (w, h, layers, aa)
  | .d3 w h d => (w, h, d, .single)
  | .cube size => (size, size, 6, .single)
  | .cubeArray size layers => (size, size, 6 * layers, .single)

/-- UnboundImage from device.rs. -/
structure UnboundImage where
  desc : ResourceDesc
  requirements : Requirements
  kind : ImgKind
  usage : Nat
  bitsPerTexel : Nat
  levels : Nat
deriving DecidableEq, Repr

/-- native::Buffer: resource pointer, bound size in bytes, stride. -/
structure NBuffer where
  resource : Nat
  size_in_bytes : Nat
  stride : Nat
deriving DecidableEq, Repr

/-- native::Image (the fields bind_image_memory fills). -/
structure NImage where
  resource : Nat
  kind : ImgKind
  dxgiFormat : Nat
  bitsPerTexel : Nat
  levels : Nat
deriving DecidableEq, Repr

/-- buffer::CreationError, restricted to the variants this code
constructs (the out-of-heap bind failure is reported as Other). -/
inductive BufferCreationError where
  | Other
deriving DecidableEq, Repr

/-- image::CreationError, restricted to the variants this code
constructs. -/
inductive ImageCreationError where
  | Format (surface : Nat) (channel : Option Nat)
  | OutOfHeap
deriving DecidableEq, Repr

/-- mapping::Error, restricted to the variant this code constructs. -/
inductive MappingError where
  | OutOfBounds
deriving DecidableEq, Repr

/-- pso::CreationError, restricted to the variants this code
constructs. -/
inductive CreationError where
  | Other
  | InvalidSubpass (index : Nat)
deriving DecidableEq, Repr

/-- Native calls the dx12 device layer can issue, recorded in program
order so that claims of the form "no native call" are expressible. -/
inductive Call where
  | createPlacedResource (heapId offset : Nat) (desc : ResourceDesc) (initState : Nat)
  | getResourceAllocationInfo (desc : ResourceDesc)
  | mapCall (resource rangeBegin rangeEnd : Nat)
  | createEventCall
  | resetEventCall
  | setEventOnCompletion (fence value : Nat)
  | waitForMultipleObjects (count : Nat) (waitAll : Bool) (timeoutMs : Nat)
  | createGraphicsPipelineState
deriving DecidableEq, Repr

/-- A reflected shader input element (shade::reflect_input_elements
output), restricted to the fields the pipeline builder reads. -/
structure InputElem where
  semantic_name : Nat
  semantic_index : Nat
deriving DecidableEq, Repr

/-- Environment of external outcomes for the dx12 device layer:
conv::map_format (format, is-target flag), the native allocation-info
query, Surface::get_total_bits, shader reflection over the (possibly
null) vertex bytecode, conv::map_topology, and the pointer values the
native calls hand back. -/
structure Dx12Env where
  mapFormat : PixelFormat → Bool → Option Nat
  allocInfo : ResourceDesc → AllocInfo
  totalBits : Nat → Nat
  reflectInputs : Option Nat → List InputElem
  mapTopology : Nat → Nat
  mapPtr : Nat
  placedPtr : Nat

/-! ## dx12 resource factory: two-phase binding and mapping -/

/-- bind_buffer_memory from device.rs: reject when
offset + requirements.size (u64 arithmetic) exceeds heap.size with the
generic creation error and no native call; otherwise place the buffer
resource at the heap offset with the heap's default state. -/
def bind_buffer_memory (env : Dx12Env) (heap : Heap) (offset : Nat)
    (buffer : UnboundBuffer) :
    List Call × Except BufferCreationError NBuffer :=
  if (offset + buffer.requirements.size) % u64Mod > heap.size then
    ([], .error .Other)
  else
    let desc : ResourceDesc :=
      { dimension := D3D12_RESOURCE_DIMENSION_BUFFER
        alignment := 0
        width := buffer.requirements.size
        height := 1
        depthOrArraySize := 1
        mipLevels := 1
        format := DXGI_FORMAT_UNKNOWN
        sampleCount := 1
        sampleQuality := 0
        layout := D3D12_TEXTURE_LAYOUT_ROW_MAJOR
        flags := 0 }
    ([Call.createPlacedResource heap.id offset desc heap.defaultState],
     .ok { resource := env.placedPtr
           size_in_bytes := buffer.requirements.size
           stride := buffer.stride })

/-- bind_image_memory from device.rs: reject when
offset + requirements.size (u64 arithmetic) exceeds heap.size with
OutOfHeap and no native call; otherwise place the image resource. -/
def bind_image_memory (env : Dx12Env) (heap : Heap) (offset : Nat)
    (image : UnboundImage) :
    List Call × Except ImageCreationError NImage :=
  if (offset + image.requirements.size) % u64Mod > heap.size then
    ([], .error .OutOfHeap)
  else
    ([Call.createPlacedResource heap.id offset image.desc heap.defaultState],
     .ok { resource := env.placedPtr
           kind := image.kind
           dxgiFormat := image.desc.format
           bitsPerTexel := image.bitsPerTexel
           levels := image.levels })

/-- The fully-formed D3D12_RESOURCE_DESC create_image builds before
querying the device, exactly as in device.rs. -/
def imageResourceDesc (kind : ImgKind) (mip_levels : Nat) (fm : Nat) :
    ResourceDesc :=
  let dims := kind.get_dimensions
  let dimension := match kind with
    | .d1 _ | .d1Array _ _ => D3D12_RESOURCE_DIMENSION_TEXTURE1D
    | .d2 _ _ _ | .d2Array _ _ _ _ => D3D12_RESOURCE_DIMENSION_TEXTURE2D
    | .d3 _ _ _ | .cube _ | .cubeArray _ _ => D3D12_RESOURCE_DIMENSION_TEXTURE3D
  { dimension := dimension
    alignment := 0
    width := dims.1
    height := dims.2.1
    depthOrArraySize := max 1 dims.2.2.1
    mipLevels := mip_levels
    format := fm
    sampleCount := dims.2.2.2.get_num_fragments
    sampleQuality := 0
    layout := D3D12_TEXTURE_LAYOUT_UNKNOWN
    flags := 0 }

/-- create_image from device.rs: an unmappable kind/format combination
returns the Format error carrying (format.0, Some(format.1)) before any
native call; otherwise the device allocation-info query over the fully
formed descriptor supplies the memory requirements of the UnboundImage. -/
def create_image (env : Dx12Env) (kind : ImgKind) (mip_levels : Nat)
    (format : PixelFormat) (usage : Nat) :
    List Call × Except ImageCreationError UnboundImage :=
  match env.mapFormat format false with
  | none => ([], .error (.Format format.surface (some format.channel)))
  | some fm =>
      let desc := imageResourceDesc kind mip_levels fm
      let alloc_info := env.allocInfo desc
      ([Call.getResourceAllocationInfo desc],
       .ok { desc := desc
             requirements :=
               { size := alloc_info.sizeInBytes
                 alignment := alloc_info.alignment }
             kind := kind
             usage := usage
             bitsPerTexel := env.totalBits format.surface
             levels := mip_levels })

/-- A byte range (Range<u64>): rangeBegin .. rangeEnd. -/
structure ByteRange where
  rangeBegin : Nat
  rangeEnd : Nat
deriving DecidableEq, Repr

/-- write_mapping_raw from device.rs: the bounds check compares the
length of the requested range, computed by u64 subtraction
(range.end - range.start, wrapping), against the buffer size; only when
that length exceeds the size does it return OutOfBounds, otherwise it
issues the native Map over the range and returns the raw pointer with a
mapping token. -/
def write_mapping_raw (env : Dx12Env) (buf : NBuffer) (range : ByteRange) :
    List Call × Except MappingError (Nat × Unit) :=
  let len : Int := ((range.rangeEnd : Int) - (range.rangeBegin : Int)).emod (u64Mod : Int)
  if len > (buf.size_in_bytes : Int) then
    ([], .error .OutOfBounds)
  else
    ([Call.mapCall buf.resource range.rangeBegin range.rangeEnd],
     .ok (env.mapPtr, ()))

/-! ## dx12 synchronization manager: wait_for_fences -/

/-- core::device::WaitFor. -/
inductive WaitFor where
  | any
  | all
deriving DecidableEq, Repr

/-- winapi WAIT_OBJECT_0. -/
def WAIT_OBJECT_0 : Nat := 0

/-- winapi WAIT_ABANDONED_0. -/
def WAIT_ABANDONED_0 : Nat := 128

/-- winapi WAIT_TIMEOUT. -/
def WAIT_TIMEOUT : Nat := 258

/-- winapi MAXIMUM_WAIT_OBJECTS. -/
def MAXIMUM_WAIT_OBJECTS : Nat := 64

/-- Outcome of wait_for_fences: a returned Bool with the native call
trace, or the panic of the catch-all match arm. -/
inductive WaitRun where
  | ret (calls : List Call) (value : Bool)
  | panicked (calls : List Call)
deriving DecidableEq, Repr

/-- Modelled from the spec: the Win32 wait contract (external to src/)
reports the wait condition as satisfied before the timeout exactly via
the statuses WAIT_OBJECT_0 + i for i below the object count. -/
def satisfiedWaitStatus (count hr : Nat) : Bool :=
  decide (WAIT_OBJECT_0 ≤ hr ∧ hr < WAIT_OBJECT_0 + count)

/-- wait_for_fences from device.rs: grow the event pool to the fence
count, reset and arm one completion event per fence at fence value 1,
issue one native multi-object wait (waitAll per the requested mode),
then map the native status: success range and abandoned range return
true, WAIT_TIMEOUT returns false, anything else panics.
eventsLen is the event-pool length held in the device state and hr the
status the native wait returns. -/
def waitAllFlag : WaitFor → Bool
  | .any => false
  | .all => true

def wait_for_fences (eventsLen : Nat) (fences : List Nat) (wait : WaitFor)
    (timeout_ms : Nat) (hr : Nat) : WaitRun :=
  let growth := List.replicate (fences.length - eventsLen) Call.createEventCall
  let arm := fences.flatMap (fun f => [Call.resetEventCall, Call.setEventOnCompletion f 1])
  let calls := growth ++ arm ++
    [Call.waitForMultipleObjects fences.length (waitAllFlag wait) timeout_ms]
  if WAIT_OBJECT_0 ≤ hr ∧ hr ≤ WAIT_OBJECT_0 + MAXIMUM_WAIT_OBJECTS then
    .ret calls true
  else if WAIT_ABANDONED_0 ≤ hr ∧ hr ≤ WAIT_ABANDONED_0 + MAXIMUM_WAIT_OBJECTS then
    .ret calls true
  else if hr = WAIT_TIMEOUT then
    .ret calls false
  else
    .panicked calls

/-! ## dx12 pipeline builder: create_graphics_pipelines -/

/-- native::ShaderLib: entry-point name to compiled blob map
(BTreeMap lookup modelled as association-list lookup; names and blobs
carried as Nat identifiers). -/
structure ShaderLib where
  shaders : List (Nat × Nat)
deriving DecidableEq, Repr

/-- build_shader from create_graphics_pipelines: an absent entry point
or a failed library lookup yields the null (empty) bytecode, modelled
as none. -/
def build_shader (lib : ShaderLib) (entry : Option Nat) : Option Nat :=
  entry.bind (fun e => lib.shaders.lookup e)

/-- pso element description: attribute format and byte offset. -/
structure Element where
  format : PixelFormat
  offset : Nat
deriving DecidableEq, Repr

/-- A pso vertex attribute: location, source buffer binding, element. -/
structure Attribute where
  location : Nat
  binding : Nat
  element : Element
deriving DecidableEq, Repr

/-- A pso vertex-buffer description (stride, instancing rate). -/
structure VertexBufferDesc where
  stride : Nat
  rate : Nat
deriving DecidableEq, Repr

/-- The shader entry points of a GraphicsPipelineDesc: the vertex stage
is mandatory, the others optional (absent means stage disabled). -/
structure ShaderEntries where
  vertex_shader : Nat
  pixel_shader : Option Nat
  geometry_shader : Option Nat
  domain_shader : Option Nat
  hull_shader : Option Nat
deriving DecidableEq, Repr

/-- A render-pass attachment (the field the pipeline builder reads). -/
structure AttachmentDescr where
  format : PixelFormat
deriving DecidableEq, Repr

/-- native::SubpassDesc: the color attachment references of one
subpass, each an index into the render pass attachment list. -/
structure SubpassDescr where
  color_attachments : List Nat
deriving DecidableEq, Repr

/-- native::RenderPass. -/
structure RenderPassDescr where
  attachments : List AttachmentDescr
  subpasses : List SubpassDescr
deriving DecidableEq, Repr

/-- pass::Subpass: a render pass and a subpass index into it. -/
structure SubpassRef where
  mainPass : RenderPassDescr
  index : Nat
deriving DecidableEq, Repr

/-- The slice of pso::GraphicsPipelineDesc this code consumes, plus the
HRESULT the native CreateGraphicsPipelineState call would return for
the assembled descriptor (an external outcome carried as data). -/
structure GraphicsPipelineDescM where
  shader_entries : ShaderEntries
  attributes : List Attribute
  vertex_buffers : List VertexBufferDesc
  primitive : Nat
  nativeOk : Bool
deriving DecidableEq, Repr

/-- One element of the batch slice passed to create_graphics_pipelines:
the shader library, the subpass reference and the descriptor (the
pipeline layout of the tuple is consumed only as the root-signature
pointer of the native descriptor and carries no control flow). -/
structure PipelineInput where
  shader_lib : ShaderLib
  subpass : SubpassRef
  desc : GraphicsPipelineDescM
deriving DecidableEq, Repr

/-- A D3D12_INPUT_ELEMENT_DESC as assembled per attribute. -/
structure D3DInputElementDesc where
  semanticName : Nat
  semanticIndex : Nat
  format : Nat
  inputSlot : Nat
  alignedByteOffset : Nat
  inputSlotClass : Nat
  instanceDataStepRate : Nat
deriving DecidableEq, Repr

/-- The structured error-severity log entries the pipeline builder
emits while validating a descriptor. -/
inductive PipeLog where
  | missingVertexBuffer (binding : Nat)
  | missingInputElem (location : Nat)
  | unknownFormat (format : PixelFormat)
deriving DecidableEq, Repr

/-- The attribute loop of create_graphics_pipelines, with the
short-circuit of collect::<Result<Vec, _>>(): for each attribute, look
up its vertex-buffer description by binding index, then its reflected
input element by semantic index = location, then the native format;
the first failure aborts with the generic error after logging which
lookup failed. -/
def collectInputElems (env : Dx12Env) (vbufs : List VertexBufferDesc)
    (input_descs : List InputElem) :
    List Attribute → List PipeLog × Except CreationError (List D3DInputElementDesc)
  | [] => ([], .ok [])
  | attrib :: rest =>
    match vbufs.get? attrib.binding with
    | none => ([.missingVertexBuffer attrib.binding], .error .Other)
    | some buffer_desc =>
      match input_descs.find? (fun elem => elem.semantic_index == attrib.location) with
      | none => ([.missingInputElem attrib.location], .error .Other)
      | some input_elem =>
        match env.mapFormat attrib.element.format false with
        | none => ([.unknownFormat attrib.element.format], .error .Other)
        | some fm =>
          let slot_class :=
            if buffer_desc.rate = 0 then D3D12_INPUT_CLASSIFICATION_PER_VERTEX_DATA
            else D3D12_INPUT_CLASSIFICATION_PER_INSTANCE_DATA
          let elemDesc : D3DInputElementDesc :=
            { semanticName := input_elem.semantic_name
              semanticIndex := input_elem.semantic_index
              format := fm
              inputSlot := attrib.binding
              alignedByteOffset := attrib.element.offset
              inputSlotClass := slot_class
              instanceDataStepRate := buffer_desc.rate }
          match collectInputElems env vbufs input_descs rest with
          | (logs, .error e) => (logs, .error e)
          | (logs, .ok elems) => (logs, .ok (elemDesc :: elems))

/-- The render-target format loop: zip the 8-slot DXGI format array
with the subpass color attachments; each referenced attachment index is
read from the render pass attachment list by direct indexing, so an
out-of-range reference panics (modelled as none). -/
def computeRtvs (env : Dx12Env) (mainPass : RenderPassDescr)
    (pass : SubpassDescr) : Option (List Nat × Nat) :=
  let refs := pass.color_attachments.take 8
  if refs.all (fun t => t < mainPass.attachments.length) then
    let formats := refs.map (fun t =>
      match mainPass.attachments.get? t with
      | some att => (env.mapFormat att.format true).getD DXGI_FORMAT_UNKNOWN
      | none => DXGI_FORMAT_UNKNOWN)
    some (formats ++ List.replicate (8 - formats.length) DXGI_FORMAT_UNKNOWN,
          refs.length)
  else
    none

/-- The result the batch stores for one descriptor: the immutable
pipeline value (native object plus the topology it was built with; the
assembled input layout and render-target data kept observable). -/
structure GraphicsPipelineM where
  topology : Nat
  inputElems : List D3DInputElementDesc
  rtvFormats : List Nat
  numRtvs : Nat
deriving DecidableEq, Repr

deriving instance DecidableEq for Except

/-- Processing one descriptor of the batch: its logs, the native calls
it issued, and its per-input result, or the panic of an out-of-range
color-attachment reference. -/
inductive DescRun where
  | done (logs : List PipeLog) (calls : List Call)
      (result : Except CreationError GraphicsPipelineM)
  | panicked (logs : List PipeLog) (calls : List Call)
deriving DecidableEq, Repr

/-- Whether a descriptor run completed without panicking. -/
def DescRun.isDone : DescRun → Bool
  | .done _ _ _ => true
  | .panicked _ _ => false

/-- The per-input result of a completed run (junk for a panic, which
the batch never stores). -/
def DescRun.result! : DescRun → Except CreationError GraphicsPipelineM
  | .done _ _ r => r
  | .panicked _ _ => .error .Other

/-- The body of the map in create_graphics_pipelines for one
descriptor: build the stage bytecodes, reflect the vertex stage, run
the attribute loop (its failure aborts the descriptor before any
native call), look up the referenced subpass (out of range aborts with
InvalidSubpass carrying the index), gather the render-target formats,
then issue the one native pipeline-state creation call whose failure
yields the generic error. -/
def create_graphics_pipeline_one (env : Dx12Env) (input : PipelineInput) :
    DescRun :=
  let lib := input.shader_lib
  let entries := input.desc.shader_entries
  let vs := build_shader lib (some entries.vertex_shader)
  let input_descs := env.reflectInputs vs
  match collectInputElems env input.desc.vertex_buffers input_descs
      input.desc.attributes with
  | (logs, .error e) => .done logs [] (.error e)
  | (logs, .ok elems) =>
    match input.subpass.mainPass.subpasses.get? input.subpass.index with
    | none => .done logs [] (.error (.InvalidSubpass input.subpass.index))
    | some pass =>
      match computeRtvs env input.subpass.mainPass pass with
      | none => .panicked logs []
      | some rtvData =>
        let topology := env.mapTopology input.desc.primitive
        let calls := [Call.createGraphicsPipelineState]
        if input.desc.nativeOk then
          .done logs calls
            (.ok { topology := topology
                   inputElems := elems
                   rtvFormats := rtvData.1
                   numRtvs := rtvData.2 })
        else
          .done logs calls (.error .Other)

/-- Outcome of the whole batch: the one-result-per-input vector, or a
panic of some descriptor aborting the collection. -/
inductive BatchRun where
  | ok (results : List (Except CreationError GraphicsPipelineM))
  | panicked
deriving DecidableEq, Repr

/-- create_graphics_pipelines from device.rs: process the descriptors
in order, each independently, collecting one result per input; a panic
in any descriptor aborts the whole call. -/
def create_graphics_pipelines (env : Dx12Env) :
    List PipelineInput → BatchRun
  | [] => .ok []
  | input :: rest =>
    match create_graphics_pipeline_one env input with
    | .panicked _ _ => .panicked
    | .done _ _ result =>
      match create_graphics_pipelines env rest with
      | .ok results => .ok (result :: results)
      | .panicked => .panicked

/-- The Bool wait_for_fences returned, or none when it panicked. -/
def WaitRun.retValue : WaitRun → Option Bool
  | .ret _ b => some b
  | .panicked _ => none

/-- The native calls wait_for_fences issued before returning or
panicking. -/
def WaitRun.nativeCalls : WaitRun → List Call
  | .ret c _ => c
  | .panicked c => c

/-! ## Concrete sample environments for witnesses and counterexamples -/

/-- A concrete dx11 environment: a successful Map handing back pointer
4096, and a simple driver write semantics for UpdateSubresource. -/
def okDx11Env : Dx11Env :=
  { mapResult := { hr := 0, pData := 4096 }
    subresourceWrite := fun _ box data bytes => writeBytes bytes box.left data }

/-- A concrete dx11 environment where the native Map fails with
E_FAIL-like status and writes nothing into the zeroed mapping
structure, leaving pData at 0. -/
def failDx11Env : Dx11Env :=
  { mapResult := { hr := -1, pData := 0 }
    subresourceWrite := fun _ box data bytes => writeBytes bytes box.left data }

/-- A concrete dx12 environment: surface 99 has no native format
mapping, everything else maps to surface*10 + channel (+1 for target
views); reflection of a present vertex shader exposes semantic indices
0 and 1. -/
def sampleDx12Env : Dx12Env :=
  { mapFormat := fun f target =>
      if f.surface = 99 then none
      else some (f.surface * 10 + f.channel + (if target then 1 else 0))
    allocInfo := fun d => { sizeInBytes := d.width * 2 + 256, alignment := 65536 }
    totalBits := fun s => 32 + s
    reflectInputs := fun vs =>
      match vs with
      | some _ => [{ semantic_name := 7, semantic_index := 0 },
                   { semantic_name := 8, semantic_index := 1 }]
      | none => []
    mapTopology := fun p => p + 100
    mapPtr := 4096
    placedPtr := 555 }

/-- A sample sub-image descriptor for texture update witnesses. -/
def sampleImageInfo : RawImageInfo :=
  { xoffset := 1, yoffset := 2, zoffset := 0
    width := 2, height := 2, depth := 1
    mipmap := 3, formatBits := 32 }

/-- A render pass with one attachment of format (2, 3) and one subpass
drawing to it. -/
def sampleRenderPass : RenderPassDescr :=
  { attachments := [{ format := { surface := 2, channel := 3 } }]
    subpasses := [{ color_attachments := [0] }] }

/-- The shader entries used by the concrete pipeline descriptors:
vertex entry point 1, every optional stage absent. -/
def sampleEntries : ShaderEntries :=
  { vertex_shader := 1
    pixel_shader := none
    geometry_shader := none
    domain_shader := none
    hull_shader := none }

/-- A pipeline descriptor whose only defect is an out-of-range subpass
index, but whose single attribute also has no matching vertex-buffer
description (vertex_buffers is empty). -/
def pipeInputBadBoth : PipelineInput :=
  { shader_lib := { shaders := [(1, 50)] }
    subpass := { mainPass := { attachments := [], subpasses := [] }, index := 1 }
    desc := { shader_entries := sampleEntries
              attributes := [{ location := 0, binding := 0
                               element := { format := { surface := 2, channel := 3 }
                                            offset := 0 } }]
              vertex_buffers := []
              primitive := 4
              nativeOk := true } }

/-- A fully well-formed pipeline descriptor that succeeds. -/
def pipeInputGood : PipelineInput :=
  { shader_lib := { shaders := [(1, 50)] }
    subpass := { mainPass := sampleRenderPass, index := 0 }
    desc := { shader_entries := sampleEntries
              attributes := [{ location := 0, binding := 0
                               element := { format := { surface := 2, channel := 3 }
                                            offset := 0 } }]
              vertex_buffers := [{ stride := 16, rate := 0 }]
              primitive := 4
              nativeOk := true } }

/-- A pipeline descriptor whose attributes all resolve but whose
subpass index 2 is out of range of the single-subpass render pass. -/
def pipeInputOorSubpass : PipelineInput :=
  { shader_lib := { shaders := [(1, 50)] }
    subpass := { mainPass := sampleRenderPass, index := 2 }
    desc := { shader_entries := sampleEntries
              attributes := [{ location := 0, binding := 0
                               element := { format := { surface := 2, channel := 3 }
                                            offset := 0 } }]
              vertex_buffers := [{ stride := 16, rate := 0 }]
              primitive := 4
              nativeOk := true } }

/-- A pipeline descriptor whose attribute references vertex-buffer
binding 0 while no vertex-buffer description exists. -/
def pipeInputMissingBinding0 : PipelineInput :=
  { shader_lib := { shaders := [(1, 50)] }
    subpass := { mainPass := sampleRenderPass, index := 0 }
    desc := { shader_entries := sampleEntries
              attributes := [{ location := 0, binding := 0
                               element := { format := { surface := 2, channel := 3 }
                                            offset := 0 } }]
              vertex_buffers := []
              primitive := 4
              nativeOk := true } }

/-- A pipeline descriptor whose attribute references vertex-buffer
binding 3 while only binding 0 exists. -/
def pipeInputMissingBinding3 : PipelineInput :=
  { shader_lib := { shaders := [(1, 50)] }
    subpass := { mainPass := sampleRenderPass, index := 0 }
    desc := { shader_entries := sampleEntries
              attributes := [{ location := 1, binding := 3
                               element := { format := { surface := 2, channel := 3 }
                                            offset := 0 } }]
              vertex_buffers := [{ stride := 16, rate := 0 }]
              primitive := 4
              nativeOk := true } }

/-- A pipeline descriptor whose attribute location 9 matches no
reflected shader input element (reflection exposes locations 0 and 1). -/
def pipeInputMissingLocation : PipelineInput :=
  { shader_lib := { shaders := [(1, 50)] }
    subpass := { mainPass := sampleRenderPass, index := 0 }
    desc := { shader_entries := sampleEntries
              attributes := [{ location := 9, binding := 0
                               element := { format := { surface := 2, channel := 3 }
                                            offset := 0 } }]
              vertex_buffers := [{ stride := 16, rate := 0 }]
              primitive := 4
              nativeOk := true } }

/-! ## Claim C1 -/

/-- Claim C1: for every buffer or texture whose usage is Immutable or
CpuOnly(READ), update_buffer and update_texture report exactly one
error event, issue no native write call, and return with the resource
bytes unchanged — no crash and no partial write. -/
theorem C1_immutable_updates_rejected (env : Dx11Env) (buffer : BufferRes)
    (texture : TextureRes) (kind : TexKind) (face : Option CubeFace)
    (dataB dataT : List Nat) (offset : Nat) (image : RawImageInfo)
    (hb : buffer.usage = Usage.immutable ∨ buffer.usage = Usage.cpuOnly READ)
    (ht : texture.usage = Usage.immutable ∨ texture.usage = Usage.cpuOnly READ) :
    update_buffer env buffer dataB offset =
      UpdateOutcome.ok [Event.errorEvent] buffer.bytes ∧
    update_texture env texture kind face dataT image =
      UpdateOutcome.ok [Event.errorEvent] texture.bytes := by
  constructor
  · rcases hb with h | h <;> simp [update_buffer, h]
  · rcases ht with h | h <;> simp [update_texture, h]

/-- Witness for C1 at concrete resources: an immutable buffer and a
CPU-read-only texture, under the successful-map environment. -/
theorem C1_witness :
    update_buffer okDx11Env ⟨1, Usage.immutable, [1, 2, 3]⟩ [9, 9] 0 =
      UpdateOutcome.ok [Event.errorEvent] [1, 2, 3] ∧
    update_texture okDx11Env ⟨2, Usage.cpuOnly READ, [4, 5]⟩ ⟨4, 4⟩ none [7]
        sampleImageInfo =
      UpdateOutcome.ok [Event.errorEvent] [4, 5] :=
  C1_immutable_updates_rejected okDx11Env ⟨1, Usage.immutable, [1, 2, 3]⟩
    ⟨2, Usage.cpuOnly READ, [4, 5]⟩ ⟨4, 4⟩ none [9, 9] [7] 0 sampleImageInfo
    (Or.inl rfl) (Or.inr rfl)

/-! ## Claim C6 -/

/-- Claim C6: the destination subresource index of update_texture is
arraySlice × mipLevels + mipLevel, the mip-level count used in the
computation is hardwired to 1, the array slice is 0 without a cube
face, and the cube faces map to slices 0..5 in the order
PosX, NegX, PosY, NegY, PosZ, NegZ.  The index is observable on the
GpuOnly path as the subresource of the single UpdateSubresource call. -/
theorem C6_subresource_index (env : Dx11Env) (texture : TextureRes)
    (kind : TexKind) (face : Option CubeFace) (data : List Nat)
    (image : RawImageInfo) (h : texture.usage = Usage.gpuOnly) :
    (∃ box rowPitch depthPitch bytes,
      update_texture env texture kind face data image =
        UpdateOutcome.ok
          [Event.updateSubresourceCall texture.id
            (arraySliceOfFace face * num_mipmap_levels + image.mipmap)
            box rowPitch depthPitch data] bytes) ∧
    num_mipmap_levels = 1 ∧
    arraySliceOfFace none = 0 ∧
    arraySliceOfFace (some CubeFace.posX) = 0 ∧
    arraySliceOfFace (some CubeFace.negX) = 1 ∧
    arraySliceOfFace (some CubeFace.posY) = 2 ∧
    arraySliceOfFace (some CubeFace.negY) = 3 ∧
    arraySliceOfFace (some CubeFace.posZ) = 4 ∧
    arraySliceOfFace (some CubeFace.negZ) = 5 := by
  refine ⟨?_, rfl, rfl, rfl, rfl, rfl, rfl, rfl, rfl⟩
  refine ⟨⟨image.xoffset, image.yoffset, image.zoffset,
           image.xoffset + image.width, image.yoffset + image.height,
           image.zoffset + image.depth⟩,
          (get_level_dimensions kind image.mipmap).1 * image.formatBits,
          (get_level_dimensions kind image.mipmap).2 *
            ((get_level_dimensions kind image.mipmap).1 * image.formatBits),
          env.subresourceWrite
            (arraySliceOfFace face * num_mipmap_levels + image.mipmap)
            ⟨image.xoffset, image.yoffset, image.zoffset,
             image.xoffset + image.width, image.yoffset + image.height,
             image.zoffset + image.depth⟩ data texture.bytes, ?_⟩
  simp [update_texture, h]

/-- Witness for C6 at a concrete GpuOnly texture and the NegY face. -/
theorem C6_witness :
    ∃ box rowPitch depthPitch bytes,
      update_texture okDx11Env ⟨6, Usage.gpuOnly, [0, 0]⟩ ⟨16, 16⟩
          (some CubeFace.negY) [1, 2] sampleImageInfo =
        UpdateOutcome.ok
          [Event.updateSubresourceCall 6
            (arraySliceOfFace (some CubeFace.negY) * num_mipmap_levels +
              sampleImageInfo.mipmap)
            box rowPitch depthPitch [1, 2]] bytes :=
  (C6_subresource_index okDx11Env ⟨6, Usage.gpuOnly, [0, 0]⟩ ⟨16, 16⟩
    (some CubeFace.negY) [1, 2] sampleImageInfo rfl).1

/-! ## Claim C10 -/

/-- Claim C10: in the Dynamic / CPU-writable path of update_buffer the
byte copy through the mapped pointer is performed unconditionally
before the map HRESULT is inspected: when the native Map fails, the
copy is still attempted at sub.pData + offset (pData taken from the
zero-initialized mapping structure), and the failure branch emits its
error event only after the write and the unmap. -/
theorem C10_copy_precedes_error_check (env : Dx11Env) (buffer : BufferRes)
    (data : List Nat) (offset : Nat)
    (hu : buffer.usage = Usage.dynamic ∨
          ∃ a, buffer.usage = Usage.cpuOnly a ∧ a ≠ READ)
    (hf : SUCCEEDED env.mapResult.hr = false) :
    update_buffer env buffer data offset =
      UpdateOutcome.ok
        [Event.mapCall buffer.id D3D11_MAP_WRITE_DISCARD,
         Event.copyMem (env.mapResult.pData + offset) data.length,
         Event.unmapCall buffer.id,
         Event.errorEvent] buffer.bytes := by
  have hpath : update_buffer env buffer data offset =
      dynamicPathBuffer env buffer data offset := by
    rcases hu with h | ⟨a, ha, hne⟩
    · simp [update_buffer, h]
    · simp [update_buffer, ha, hne]
  rw [hpath]
  simp [dynamicPathBuffer, hf]

/-- Witness for C10: a Dynamic buffer under the failing-map
environment, whose zeroed mapping structure leaves pData = 0, so the
copy is attempted at the raw offset 5 and the error event trails it. -/
theorem C10_witness :
    update_buffer failDx11Env ⟨3, Usage.dynamic, [1, 2, 3]⟩ [7, 7] 5 =
      UpdateOutcome.ok
        [Event.mapCall 3 D3D11_MAP_WRITE_DISCARD,
         Event.copyMem 5 2,
         Event.unmapCall 3,
         Event.errorEvent] [1, 2, 3] :=
  C10_copy_precedes_error_check failDx11Env ⟨3, Usage.dynamic, [1, 2, 3]⟩
    [7, 7] 5 (Or.inl rfl) (by decide)

/-! ## Claim C5 -/

/-- Counterexample to C5: for a texture of Dynamic usage,
update_texture does not perform a discard-map update at all — the
Dynamic / CpuOnly(write) / Persistent arm is unimplemented!() and the
call panics with no native call issued, while the claim requires a
map / copy / unmap sequence for both update_buffer and update_texture. -/
theorem C5_counterexample :
    update_texture okDx11Env ⟨3, Usage.dynamic, [1, 2]⟩ ⟨4, 4⟩ none [9]
        sampleImageInfo = UpdateOutcome.panicked [] := by
  decide

/-- Claim C5 as amended: for Dynamic or CPU-writable usage,
update_buffer performs the update by a WRITE_DISCARD map, a byte copy
starting at the destination offset through the returned pointer, and an
unmap; update_texture, however, panics on these usages (unimplemented)
instead of performing any update. -/
theorem C5_amended_discard_map_path (env : Dx11Env) (buffer : BufferRes)
    (texture : TextureRes) (kind : TexKind) (face : Option CubeFace)
    (dataB dataT : List Nat) (offset : Nat) (image : RawImageInfo)
    (hb : buffer.usage = Usage.dynamic ∨
          ∃ a, buffer.usage = Usage.cpuOnly a ∧ a ≠ READ)
    (ht : texture.usage = Usage.dynamic ∨
          ∃ a, texture.usage = Usage.cpuOnly a ∧ a ≠ READ)
    (hs : SUCCEEDED env.mapResult.hr = true) :
    update_buffer env buffer dataB offset =
      UpdateOutcome.ok
        [Event.mapCall buffer.id D3D11_MAP_WRITE_DISCARD,
         Event.copyMem (env.mapResult.pData + offset) dataB.length,
         Event.unmapCall buffer.id]
        (writeBytes buffer.bytes offset dataB) ∧
    update_texture env texture kind face dataT image =
      UpdateOutcome.panicked [] := by
  constructor
  · have hpath : update_buffer env buffer dataB offset =
        dynamicPathBuffer env buffer dataB offset := by
      rcases hb with h | ⟨a, ha, hne⟩
      · simp [update_buffer, h]
      · simp [update_buffer, ha, hne]
    rw [hpath]
    simp [dynamicPathBuffer, hs]
  · rcases ht with h | ⟨a, ha, hne⟩
    · simp [update_texture, h]
    · simp [update_texture, ha, hne]

/-- Witness for the amended C5: a Dynamic buffer is updated through
map / copy / unmap with the payload spliced at offset 1, while a
CPU-writable (CpuOnly RW) texture panics. -/
theorem C5_witness :
    update_buffer okDx11Env ⟨4, Usage.dynamic, [1, 2, 3, 4]⟩ [8, 9] 1 =
      UpdateOutcome.ok
        [Event.mapCall 4 D3D11_MAP_WRITE_DISCARD,
         Event.copyMem 4097 2,
         Event.unmapCall 4]
        [1, 8, 9, 4] ∧
    update_texture okDx11Env ⟨5, Usage.cpuOnly 3, [6]⟩ ⟨4, 4⟩ none [9]
        sampleImageInfo = UpdateOutcome.panicked [] := by
  have h := C5_amended_discard_map_path okDx11Env ⟨4, Usage.dynamic, [1, 2, 3, 4]⟩
    ⟨5, Usage.cpuOnly 3, [6]⟩ ⟨4, 4⟩ none [8, 9] [9] 1 sampleImageInfo
    (Or.inl rfl) (Or.inr ⟨3, rfl, by decide⟩) (by decide)
  simpa [writeBytes, okDx11Env] using h

/-! ## Claim C2 -/

/-- Counterexample to C2: a buffer of 10 bytes and the requested range
5..12, i.e. offset 5 and size 7 with offset + size = 12 > 10, is not
rejected — write_mapping_raw only compares the range length
(12 − 5 = 7) against the buffer size, so it issues the native Map over
the out-of-bounds range and returns the mapped pointer instead of the
out-of-bounds error the claim requires. -/
theorem C2_counterexample :
    write_mapping_raw sampleDx12Env ⟨7, 10, 4⟩ ⟨5, 12⟩ =
      ([Call.mapCall 7 5 12], Except.ok (4096, ())) ∧
    5 + (12 - 5) > 10 := by
  decide

/-- Claim C2 as amended: write_mapping_raw rejects a requested byte
range exactly when the range length (end − start, by u64 subtraction)
exceeds the buffer's size, returning the out-of-bounds mapping error
with no native Map call; any other range — including ranges whose end
lies past the buffer — is mapped with exactly one native Map call on
the buffer's resource. -/
theorem C2_amended_length_bound (env : Dx12Env) (buf : NBuffer)
    (range : ByteRange) (hle : range.rangeBegin ≤ range.rangeEnd)
    (hlt : range.rangeEnd < u64Mod) :
    (range.rangeEnd - range.rangeBegin > buf.size_in_bytes →
      write_mapping_raw env buf range = ([], Except.error MappingError.OutOfBounds)) ∧
    (range.rangeEnd - range.rangeBegin ≤ buf.size_in_bytes →
      write_mapping_raw env buf range =
        ([Call.mapCall buf.resource range.rangeBegin range.rangeEnd],
         Except.ok (env.mapPtr, ()))) := by
  have h0 : (0 : Int) ≤ (range.rangeEnd : Int) - (range.rangeBegin : Int) := by
    omega
  have h1 : (range.rangeEnd : Int) - (range.rangeBegin : Int) < (u64Mod : Int) := by
    omega
  have hlen : ((range.rangeEnd : Int) - (range.rangeBegin : Int)).emod (u64Mod : Int) =
      (range.rangeEnd : Int) - (range.rangeBegin : Int) :=
    Int.emod_eq_of_lt h0 h1
  constructor
  · intro hgt
    simp only [write_mapping_raw, hlen]
    split_ifs with hc
    · rfl
    · exfalso
      omega
  · intro hle2
    simp only [write_mapping_raw, hlen]
    split_ifs with hc
    · exfalso
      omega
    · rfl

/-- Witness for the amended C2: the range 2..20 on a 10-byte buffer has
length 18 > 10 and is rejected with OutOfBounds and no native call. -/
theorem C2_witness :
    write_mapping_raw sampleDx12Env ⟨7, 10, 4⟩ ⟨2, 20⟩ =
      ([], Except.error MappingError.OutOfBounds) :=
  (C2_amended_length_bound sampleDx12Env ⟨7, 10, 4⟩ ⟨2, 20⟩ (by decide)
    (by decide)).1 (by decide)

/-! ## Claim C3 -/

/-- Claim C3: for every heap, offset and unbound buffer or image whose
offset + requirements.size (within the u64 range) exceeds heap.size,
bind_buffer_memory and bind_image_memory return their out-of-heap/size
error (CreationError::Other for buffers, OutOfHeap for images) and
issue no native placed-resource creation call. -/
theorem C3_bind_memory_out_of_heap (env : Dx12Env) (heap : Heap)
    (offset : Nat) (buffer : UnboundBuffer) (image : UnboundImage)
    (hbNoOv : offset + buffer.requirements.size < u64Mod)
    (hiNoOv : offset + image.requirements.size < u64Mod)
    (hbGt : offset + buffer.requirements.size > heap.size)
    (hiGt : offset + image.requirements.size > heap.size) :
    bind_buffer_memory env heap offset buffer =
      ([], Except.error BufferCreationError.Other) ∧
    bind_image_memory env heap offset image =
      ([], Except.error ImageCreationError.OutOfHeap) := by
  constructor
  · simp only [bind_buffer_memory, Nat.mod_eq_of_lt hbNoOv]
    rw [if_pos hbGt]
  · simp only [bind_image_memory, Nat.mod_eq_of_lt hiNoOv]
    rw [if_pos hiGt]

/-- Witness for C3: a 100-byte heap, offset 60 and resources of size
50 are rejected by both bind calls with no native call issued. -/
theorem C3_witness :
    bind_buffer_memory sampleDx12Env ⟨1, 100, 0⟩ 60
        ⟨⟨50, 65536⟩, 4, 0⟩ =
      ([], Except.error BufferCreationError.Other) ∧
    bind_image_memory sampleDx12Env ⟨1, 100, 0⟩ 60
        ⟨⟨3, 0, 8, 8, 1, 1, 24, 1, 0, 0, 0⟩, ⟨50, 65536⟩,
         ImgKind.d2 8 8 AaMode.single, 0, 32, 1⟩ =
      ([], Except.error ImageCreationError.OutOfHeap) :=
  C3_bind_memory_out_of_heap sampleDx12Env ⟨1, 100, 0⟩ 60
    ⟨⟨50, 65536⟩, 4, 0⟩
    ⟨⟨3, 0, 8, 8, 1, 1, 24, 1, 0, 0, 0⟩, ⟨50, 65536⟩,
     ImgKind.d2 8 8 AaMode.single, 0, 32, 1⟩
    (by decide) (by decide) (by decide) (by decide)

/-! ## Claim C7 -/

/-- Claim C7: create_image with a kind/format combination that has no
native format mapping returns the Format error carrying the rejected
(surface, Some channel) pair of the format without issuing the device
query; with a supported combination it returns an UnboundImage whose
requirements come from the native allocation-info query over the fully
formed resource descriptor (dimension, extents, mip levels, sample
count, format). -/
theorem C7_create_image_format_gate (env : Dx12Env) (kind : ImgKind)
    (mip_levels : Nat) (format : PixelFormat) (usage : Nat) :
    (env.mapFormat format false = none →
      create_image env kind mip_levels format usage =
        ([], Except.error
          (ImageCreationError.Format format.surface (some format.channel)))) ∧
    (∀ fm, env.mapFormat format false = some fm →
      create_image env kind mip_levels format usage =
        ([Call.getResourceAllocationInfo (imageResourceDesc kind mip_levels fm)],
         Except.ok
           { desc := imageResourceDesc kind mip_levels fm
             requirements :=
               { size := (env.allocInfo (imageResourceDesc kind mip_levels fm)).sizeInBytes
                 alignment := (env.allocInfo (imageResourceDesc kind mip_levels fm)).alignment }
             kind := kind
             usage := usage
             bitsPerTexel := env.totalBits format.surface
             levels := mip_levels }) ∧
      (imageResourceDesc kind mip_levels fm).format = fm ∧
      (imageResourceDesc kind mip_levels fm).mipLevels = mip_levels ∧
      (imageResourceDesc kind mip_levels fm).width = kind.get_dimensions.1 ∧
      (imageResourceDesc kind mip_levels fm).height = kind.get_dimensions.2.1 ∧
      (imageResourceDesc kind mip_levels fm).depthOrArraySize =
        max 1 kind.get_dimensions.2.2.1 ∧
      (imageResourceDesc kind mip_levels fm).sampleCount =
        kind.get_dimensions.2.2.2.get_num_fragments) := by
  constructor
  · intro h
    simp [create_image, h]
  · intro fm h
    refine ⟨by simp [create_image, h], rfl, rfl, rfl, rfl, rfl, rfl⟩

/-- Witness for C7 at concrete inputs: surface 99 has no mapping and is
rejected with the Format error naming (99, Some 5) before any native
call; the supported format (2, 3) maps to native format 23 and the
returned requirements come from the device query over the assembled
descriptor. -/
theorem C7_witness :
    create_image sampleDx12Env (ImgKind.d2 8 8 AaMode.single) 1
        ⟨99, 5⟩ 0 =
      ([], Except.error (ImageCreationError.Format 99 (some 5))) ∧
    create_image sampleDx12Env (ImgKind.d2 8 8 AaMode.single) 1
        ⟨2, 3⟩ 0 =
      ([Call.getResourceAllocationInfo (imageResourceDesc (ImgKind.d2 8 8 AaMode.single) 1 23)],
       Except.ok
         { desc := imageResourceDesc (ImgKind.d2 8 8 AaMode.single) 1 23
           requirements := { size := 272, alignment := 65536 }
           kind := ImgKind.d2 8 8 AaMode.single
           usage := 0
           bitsPerTexel := 34
           levels := 1 }) := by
  constructor
  · exact (C7_create_image_format_gate sampleDx12Env
      (ImgKind.d2 8 8 AaMode.single) 1 ⟨99, 5⟩ 0).1 (by decide)
  · have h := ((C7_create_image_format_gate sampleDx12Env
      (ImgKind.d2 8 8 AaMode.single) 1 ⟨2, 3⟩ 0).2 23 (by decide)).1
    rw [h]
    decide

/-! ## Claim C9 -/

/-- Counterexample to C9: when the native multi-object wait reports
WAIT_ABANDONED_0 — a status that neither signals the wait condition
satisfied (the satisfaction statuses for two objects are 0 and 1) nor
is the timeout status — wait_for_fences returns true instead of
treating the outcome as fatal, so the claimed iff and the claimed
fatality of every other native outcome both fail. -/
theorem C9_counterexample :
    wait_for_fences 0 [10, 11] WaitFor.all 500 WAIT_ABANDONED_0 =
      WaitRun.ret
        [Call.createEventCall, Call.createEventCall,
         Call.resetEventCall, Call.setEventOnCompletion 10 1,
         Call.resetEventCall, Call.setEventOnCompletion 11 1,
         Call.waitForMultipleObjects 2 true 500] true ∧
    satisfiedWaitStatus 2 WAIT_ABANDONED_0 = false ∧
    WAIT_ABANDONED_0 ≠ WAIT_TIMEOUT := by
  decide

/-- Claim C9 as amended: wait_for_fences arms every fence at value 1,
issues exactly one native multi-object wait whose waitAll flag matches
the requested mode and whose timeout is the requested one, and then
maps the native status: the success range WAIT_OBJECT_0..+64 and also
the abandoned range WAIT_ABANDONED_0..+64 return true, WAIT_TIMEOUT
returns false, and every remaining status panics (fatal). -/
theorem C9_amended_wait_outcomes (eventsLen : Nat) (fences : List Nat)
    (wait : WaitFor) (timeout hr : Nat) :
    (hr ≤ WAIT_OBJECT_0 + MAXIMUM_WAIT_OBJECTS →
      (wait_for_fences eventsLen fences wait timeout hr).retValue = some true) ∧
    (WAIT_ABANDONED_0 ≤ hr ∧ hr ≤ WAIT_ABANDONED_0 + MAXIMUM_WAIT_OBJECTS →
      (wait_for_fences eventsLen fences wait timeout hr).retValue = some true) ∧
    (hr = WAIT_TIMEOUT →
      (wait_for_fences eventsLen fences wait timeout hr).retValue = some false) ∧
    (WAIT_OBJECT_0 + MAXIMUM_WAIT_OBJECTS < hr ∧ hr < WAIT_ABANDONED_0 →
      (wait_for_fences eventsLen fences wait timeout hr).retValue = none) ∧
    (WAIT_ABANDONED_0 + MAXIMUM_WAIT_OBJECTS < hr ∧ hr ≠ WAIT_TIMEOUT →
      (wait_for_fences eventsLen fences wait timeout hr).retValue = none) ∧
    ((wait_for_fences eventsLen fences wait timeout hr).nativeCalls.count
        (Call.waitForMultipleObjects fences.length (waitAllFlag wait) timeout) = 1) ∧
    (∀ f ∈ fences, Call.setEventOnCompletion f 1 ∈
        (wait_for_fences eventsLen fences wait timeout hr).nativeCalls) := by
  have hcalls : (wait_for_fences eventsLen fences wait timeout hr).nativeCalls =
      List.replicate (fences.length - eventsLen) Call.createEventCall ++
      (fences.flatMap fun f => [Call.resetEventCall, Call.setEventOnCompletion f 1]) ++
      [Call.waitForMultipleObjects fences.length (waitAllFlag wait) timeout] := by
    simp only [wait_for_fences]
    split_ifs <;> rfl
  refine ⟨?_, ?_, ?_, ?_, ?_, ?_, ?_⟩
  · intro h
    simp only [WAIT_OBJECT_0, MAXIMUM_WAIT_OBJECTS] at h
    simp only [wait_for_fences, WAIT_OBJECT_0, WAIT_ABANDONED_0, WAIT_TIMEOUT,
      MAXIMUM_WAIT_OBJECTS]
    split_ifs <;> first | rfl | (exfalso; omega)
  · intro h
    simp only [WAIT_ABANDONED_0, MAXIMUM_WAIT_OBJECTS] at h
    simp only [wait_for_fences, WAIT_OBJECT_0, WAIT_ABANDONED_0, WAIT_TIMEOUT,
      MAXIMUM_WAIT_OBJECTS]
    split_ifs <;> first | rfl | (exfalso; omega)
  · intro h
    simp only [WAIT_TIMEOUT] at h
    simp only [wait_for_fences, WAIT_OBJECT_0, WAIT_ABANDONED_0, WAIT_TIMEOUT,
      MAXIMUM_WAIT_OBJECTS]
    split_ifs <;> first | rfl | (exfalso; omega)
  · intro h
    simp only [WAIT_OBJECT_0, WAIT_ABANDONED_0, MAXIMUM_WAIT_OBJECTS] at h
    simp only [wait_for_fences, WAIT_OBJECT_0, WAIT_ABANDONED_0, WAIT_TIMEOUT,
      MAXIMUM_WAIT_OBJECTS]
    split_ifs <;> first | rfl | (exfalso; omega)
  · intro h
    simp only [WAIT_ABANDONED_0, MAXIMUM_WAIT_OBJECTS, WAIT_TIMEOUT] at h
    simp only [wait_for_fences, WAIT_OBJECT_0, WAIT_ABANDONED_0, WAIT_TIMEOUT,
      MAXIMUM_WAIT_OBJECTS]
    split_ifs <;> first | rfl | (exfalso; omega)
  · rw [hcalls]
    have hgrow : (List.replicate (fences.length - eventsLen)
        Call.createEventCall).count
        (Call.waitForMultipleObjects fences.length (waitAllFlag wait) timeout) = 0 := by
      refine List.count_eq_zero.mpr ?_
      intro hmem
      exact absurd (List.eq_of_mem_replicate hmem) (by simp)
    have harm : (fences.flatMap fun f =>
        [Call.resetEventCall, Call.setEventOnCompletion f 1]).count
        (Call.waitForMultipleObjects fences.length (waitAllFlag wait) timeout) = 0 := by
      refine List.count_eq_zero.mpr ?_
      intro hmem
      rcases List.mem_flatMap.mp hmem with ⟨f, _, hin⟩
      simp at hin
    simp [List.count_append, hgrow, harm]
  · intro f hf
    rw [hcalls]
    refine List.mem_append.mpr (Or.inl (List.mem_append.mpr (Or.inr ?_)))
    exact List.mem_flatMap.mpr ⟨f, hf, by simp⟩

/-- Witness for the amended C9: one fence, Any mode, native status
WAIT_TIMEOUT — the call returns false and the fence was armed at
value 1. -/
theorem C9_witness :
    (wait_for_fences 0 [5] WaitFor.any 100 WAIT_TIMEOUT).retValue = some false ∧
    Call.setEventOnCompletion 5 1 ∈
      (wait_for_fences 0 [5] WaitFor.any 100 WAIT_TIMEOUT).nativeCalls :=
  ⟨(C9_amended_wait_outcomes 0 [5] WaitFor.any 100 WAIT_TIMEOUT).2.2.1 rfl,
   (C9_amended_wait_outcomes 0 [5] WaitFor.any 100 WAIT_TIMEOUT).2.2.2.2.2.2 5
     (by simp)⟩

/-! ## Claim C4 -/

/-- Helper: when no descriptor of the batch panics, the batch returns
one result per input in order, each computed from its own input
alone. -/
theorem create_graphics_pipelines_eq_map (env : Dx12Env)
    (inputs : List PipelineInput)
    (h : ∀ x ∈ inputs, (create_graphics_pipeline_one env x).isDone = true) :
    create_graphics_pipelines env inputs =
      BatchRun.ok (inputs.map fun x =>
        (create_graphics_pipeline_one env x).result!) := by
  induction inputs with
  | nil => rfl
  | cons head tail ih =>
    have hh := h head (List.mem_cons_self head tail)
    have ht : ∀ x ∈ tail, (create_graphics_pipeline_one env x).isDone = true :=
      fun x hx => h x (List.mem_cons_of_mem head hx)
    cases hd : create_graphics_pipeline_one env head with
    | done logs calls result =>
      simp [create_graphics_pipelines, hd, ih ht, DescRun.result!]
    | panicked logs calls =>
      rw [hd] at hh
      simp [DescRun.isDone] at hh

/-- Counterexample to C4: a batch of one descriptor in which exactly
one descriptor (the only one) references a subpass index (1) out of
range of its render pass's empty subpass list, yet the result at the
matching position is the generic Other error, not InvalidSubpass — the
vertex-attribute validation runs first and its failure masks the
out-of-range subpass. -/
theorem C4_counterexample :
    create_graphics_pipelines sampleDx12Env [pipeInputBadBoth] =
      BatchRun.ok [Except.error CreationError.Other] ∧
    pipeInputBadBoth.subpass.mainPass.subpasses.get?
      pipeInputBadBoth.subpass.index = none ∧
    (Except.error (CreationError.InvalidSubpass 1) :
      Except CreationError GraphicsPipelineM) ≠
      Except.error CreationError.Other := by
  decide

/-- Claim C4 as amended: over a batch in which no descriptor panics,
if descriptor i references an out-of-range subpass index and its
vertex attributes all resolve (attribute validation precedes the
subpass lookup), then the batch returns exactly one result per input
in input order, the result of every position is computed from its own
descriptor alone, and position i holds the InvalidSubpass error
carrying that subpass index. -/
theorem C4_amended_invalid_subpass (env : Dx12Env)
    (inputs : List PipelineInput) (i : Nat) (inp : PipelineInput)
    (hdone : ∀ x ∈ inputs, (create_graphics_pipeline_one env x).isDone = true)
    (hi : inputs.get? i = some inp)
    (hsub : inp.subpass.mainPass.subpasses.get? inp.subpass.index = none)
    (hattr : ∃ logs elems,
      collectInputElems env inp.desc.vertex_buffers
        (env.reflectInputs (build_shader inp.shader_lib
          (some inp.desc.shader_entries.vertex_shader)))
        inp.desc.attributes = (logs, Except.ok elems)) :
    create_graphics_pipelines env inputs =
      BatchRun.ok (inputs.map fun x =>
        (create_graphics_pipeline_one env x).result!) ∧
    (inputs.map fun x =>
      (create_graphics_pipeline_one env x).result!).length = inputs.length ∧
    (inputs.map fun x =>
      (create_graphics_pipeline_one env x).result!).get? i =
      some (Except.error (CreationError.InvalidSubpass inp.subpass.index)) := by
  obtain ⟨logs, elems, hc⟩ := hattr
  have hsub2 : inp.subpass.mainPass.subpasses[inp.subpass.index]? = none := by
    rw [← List.get?_eq_getElem?]
    exact hsub
  have hone : create_graphics_pipeline_one env inp =
      DescRun.done logs []
        (Except.error (CreationError.InvalidSubpass inp.subpass.index)) := by
    simp [create_graphics_pipeline_one, hc, hsub2]
  refine ⟨create_graphics_pipelines_eq_map env inputs hdone, by simp, ?_⟩
  have hi2 : inputs[i]? = some inp := by
    rw [← List.get?_eq_getElem?]
    exact hi
  rw [List.get?_eq_getElem?, List.getElem?_map, hi2]
  simp [hone, DescRun.result!]

/-- Witness for the amended C4: a two-descriptor batch whose first
descriptor succeeds and whose second references subpass index 2 of a
single-subpass render pass — the batch yields the successful pipeline
at position 0 and InvalidSubpass 2 at position 1. -/
theorem C4_witness :
    create_graphics_pipelines sampleDx12Env
        [pipeInputGood, pipeInputOorSubpass] =
      BatchRun.ok
        [Except.ok { topology := 104
                     inputElems := [⟨7, 0, 23, 0, 0, 0, 0⟩]
                     rtvFormats := [24, 0, 0, 0, 0, 0, 0, 0]
                     numRtvs := 1 },
         Except.error (CreationError.InvalidSubpass 2)] := by
  have h := C4_amended_invalid_subpass sampleDx12Env
    [pipeInputGood, pipeInputOorSubpass] 1 pipeInputOorSubpass
    (by decide) (by decide) (by decide)
    ⟨[], [⟨7, 0, 23, 0, 0, 0, 0⟩], by decide⟩
  rw [h.1]
  decide

/-! ## Claim C8 -/

/-- Counterexample to C8: descriptors missing vertex-buffer binding 0,
missing vertex-buffer binding 3, and missing reflected input location 9
all fail with the identical, payload-free error value
CreationError::Other — the returned error value does not identify the
missing binding or location (only the error log does); the failure does
come before any native call. -/
theorem C8_counterexample :
    create_graphics_pipeline_one sampleDx12Env pipeInputMissingBinding0 =
      DescRun.done [PipeLog.missingVertexBuffer 0] []
        (Except.error CreationError.Other) ∧
    create_graphics_pipeline_one sampleDx12Env pipeInputMissingBinding3 =
      DescRun.done [PipeLog.missingVertexBuffer 3] []
        (Except.error CreationError.Other) ∧
    create_graphics_pipeline_one sampleDx12Env pipeInputMissingLocation =
      DescRun.done [PipeLog.missingInputElem 9] []
        (Except.error CreationError.Other) := by
  decide

/-- Claim C8 as amended: a vertex attribute whose binding index has no
vertex-buffer description, or whose location matches no reflected
shader input element, aborts that descriptor's pipeline creation before
any native call with the generic error value CreationError::Other; the
missing binding or location is identified only in the emitted
error-severity log entry, not in the returned error value. -/
theorem C8_amended_lookup_failures (env : Dx12Env) :
    (∀ (vbufs : List VertexBufferDesc) (input_descs : List InputElem)
        (attrib : Attribute) (rest : List Attribute),
      vbufs.get? attrib.binding = none →
      collectInputElems env vbufs input_descs (attrib :: rest) =
        ([PipeLog.missingVertexBuffer attrib.binding],
         Except.error CreationError.Other)) ∧
    (∀ (vbufs : List VertexBufferDesc) (input_descs : List InputElem)
        (attrib : Attribute) (rest : List Attribute) (bd : VertexBufferDesc),
      vbufs.get? attrib.binding = some bd →
      input_descs.find? (fun elem => elem.semantic_index == attrib.location) = none →
      collectInputElems env vbufs input_descs (attrib :: rest) =
        ([PipeLog.missingInputElem attrib.location],
         Except.error CreationError.Other)) ∧
    (∀ (input : PipelineInput) (logs : List PipeLog) (e : CreationError),
      collectInputElems env input.desc.vertex_buffers
        (env.reflectInputs (build_shader input.shader_lib
          (some input.desc.shader_entries.vertex_shader)))
        input.desc.attributes = (logs, Except.error e) →
      create_graphics_pipeline_one env input =
        DescRun.done logs [] (Except.error e)) := by
  refine ⟨?_, ?_, ?_⟩
  · intro vbufs input_descs attrib rest h
    have h2 : vbufs[attrib.binding]? = none := by
      rw [← List.get?_eq_getElem?]
      exact h
    simp [collectInputElems, h2]
  · intro vbufs input_descs attrib rest bd h1 h2
    have h3 : vbufs[attrib.binding]? = some bd := by
      rw [← List.get?_eq_getElem?]
      exact h1
    simp [collectInputElems, h3, h2]
  · intro input logs e h
    simp [create_graphics_pipeline_one, h]

/-- Witness for the amended C8: a concrete attribute referencing the
absent binding 7 aborts the attribute loop with the generic error and
its log entry, and a descriptor with an unresolvable attribute is
rejected with no native call issued. -/
theorem C8_witness :
    collectInputElems sampleDx12Env [⟨16, 0⟩] [⟨7, 0⟩]
        [⟨4, 7, ⟨⟨2, 3⟩, 0⟩⟩] =
      ([PipeLog.missingVertexBuffer 7], Except.error CreationError.Other) ∧
    create_graphics_pipeline_one sampleDx12Env pipeInputMissingBinding0 =
      DescRun.done [PipeLog.missingVertexBuffer 0] []
        (Except.error CreationError.Other) :=
  ⟨(C8_amended_lookup_failures sampleDx12Env).1 [⟨16, 0⟩] [⟨7, 0⟩]
      ⟨4, 7, ⟨⟨2, 3⟩, 0⟩⟩ [] (by decide),
   (C8_amended_lookup_failures sampleDx12Env).2.2 pipeInputMissingBinding0
      [PipeLog.missingVertexBuffer 0] CreationError.Other (by decide)⟩

end GfxModel
